import Mathlib

/-!
Verification development for the cooked-waker type-erasure and dispatch
layer (src/src/lib.rs). The library converts a wake-capable value into an
erased handle: a raw pointer obtained from the ViaRawPointer conversion,
paired with a statically allocated four-entry dispatch table (clone, wake
by value, wake by reference, destroy). We give a shallow embedding of the
codec operations, the wrapper trait implementations for Box, Arc, Rc, Weak
and Option, and the four vtable entries, including the Rust unwinding
semantics relevant to a panic raised from a user wake callback.
-/

/-- Machine pointers are modelled as natural numbers. -/
abbrev Ptr := Nat

/-- The null pointer, as produced by ptr null_mut in the Option codec. -/
def nullPtr : Ptr := 0

/-- A ViaRawPointer implementation (src/src/lib.rs lines 159-169): a pair of
conversions between a value and a raw pointer. -/
structure ViaRawPointerImpl (α : Type) where
  into_raw : α → Ptr
  from_raw : Ptr → α

/-- ViaRawPointer for Option, packing direction (lines 427-432): Some packs
the inner value, None packs the null pointer. -/
def optionIntoRaw (I : ViaRawPointerImpl α) : Option α → Ptr
  | some value => I.into_raw value
  | none => nullPtr

/-- ViaRawPointer for Option, unpacking direction (lines 434-439): a null
pointer decodes to None, any other pointer decodes to Some of the inner
decoding. -/
def optionFromRaw (I : ViaRawPointerImpl α) (ptr : Ptr) : Option α :=
  if ptr = nullPtr then none else some (I.from_raw ptr)

/-- A Box is represented at runtime by the address of its allocation; the
conversions of lines 306-316 are the identity on that representation. -/
structure BoxRepr where
  ptr : Ptr
deriving DecidableEq

/-- ViaRawPointer for Box, packing direction (lines 309-311). -/
def boxIntoRaw (b : BoxRepr) : Ptr := b.ptr

/-- ViaRawPointer for Box, unpacking direction (lines 313-315). -/
def boxFromRaw (p : Ptr) : BoxRepr := ⟨p⟩

/-- An Arc is represented by the address of its inner value. -/
structure ArcRepr where
  ptr : Ptr
deriving DecidableEq

/-- ViaRawPointer for arc Arc, packing direction (lines 335-337). -/
def arcIntoRaw (a : ArcRepr) : Ptr := a.ptr

/-- ViaRawPointer for arc Arc, unpacking direction (lines 339-341). -/
def arcFromRaw (p : Ptr) : ArcRepr := ⟨p⟩

/-- An rc Rc is represented by the address of its inner value. -/
structure RcRepr where
  ptr : Ptr
deriving DecidableEq

/-- ViaRawPointer for rc Rc, packing direction (lines 384-386). -/
def rcIntoRaw (r : RcRepr) : Ptr := r.ptr

/-- ViaRawPointer for rc Rc, unpacking direction (lines 388-390). -/
def rcFromRaw (p : Ptr) : RcRepr := ⟨p⟩

/-- An arc Weak is represented by the address of its target allocation. -/
structure ArcWeakRepr where
  ptr : Ptr
deriving DecidableEq

/-- ViaRawPointer for arc Weak, packing direction (lines 356-358). -/
def arcWeakIntoRaw (a : ArcWeakRepr) : Ptr := a.ptr

/-- ViaRawPointer for arc Weak, unpacking direction (lines 360-362). -/
def arcWeakFromRaw (p : Ptr) : ArcWeakRepr := ⟨p⟩

/-- An rc Weak is represented by the address of its target allocation. -/
structure RcWeakRepr where
  ptr : Ptr
deriving DecidableEq

/-- ViaRawPointer for rc Weak, packing direction (lines 403-405). -/
def rcWeakIntoRaw (r : RcWeakRepr) : Ptr := r.ptr

/-- ViaRawPointer for rc Weak, unpacking direction (lines 407-409). -/
def rcWeakFromRaw (p : Ptr) : RcWeakRepr := ⟨p⟩

/-- The StaticWaker user implementation from the crate documentation
(lines 54-67): a zero-sized value whose into_raw forgets the value and
returns the null pointer, and whose from_raw rebuilds the unit value. It
satisfies the documented ViaRawPointer contract (the pointer is stable
across from_raw followed by into_raw). -/
def staticWakerVia : ViaRawPointerImpl Unit :=
  { into_raw := fun _ => nullPtr, from_raw := fun _ => () }

/-- A representative user codec with a non-null stable pointer encoding,
shifting the value by one so that no value encodes to the null pointer. -/
def succVia : ViaRawPointerImpl Nat :=
  { into_raw := fun n => n + 1, from_raw := fun p => p - 1 }

/-- WakeRef for Option (lines 442-449): a no-op on None, otherwise a
forward to the inner value's wake_by_ref. The inner implementation acts on
a world of type σ and may fault (none). -/
def optionWakeByRefImpl (wakeByRef : α → σ → Option σ) : Option α → σ → Option σ
  | some waker, s => wakeByRef waker s
  | none, s => some s

/-- Wake for Option (lines 451-458): a no-op on None, otherwise a forward
to the inner value's consuming wake. -/
def optionWakeImpl (wake : α → σ → Option σ) : Option α → σ → Option σ
  | some waker, s => wake waker s
  | none, s => some s

/-- C9: an empty optional value is a no-op on both wake_by_ref and wake,
completing without fault, while Some forwards to the identically-named
operation of the inner value. -/
theorem option_wake_noop_or_forward :
    (∀ (α σ : Type) (wbr : α → σ → Option σ) (s : σ),
      optionWakeByRefImpl wbr none s = some s) ∧
    (∀ (α σ : Type) (wk : α → σ → Option σ) (s : σ),
      optionWakeImpl wk none s = some s) ∧
    (∀ (α σ : Type) (wbr : α → σ → Option σ) (v : α) (s : σ),
      optionWakeByRefImpl wbr (some v) s = wbr v s) ∧
    (∀ (α σ : Type) (wk : α → σ → Option σ) (v : α) (s : σ),
      optionWakeImpl wk (some v) s = wk v s) :=
  ⟨fun _ _ _ _ => rfl, fun _ _ _ _ => rfl, fun _ _ _ _ _ => rfl, fun _ _ _ _ _ => rfl⟩

/-- C10: the Option codec encodes None as the null pointer and Some as the
inner encoding, decodes null as None and any non-null pointer as Some, so
the Some round-trip holds exactly when the inner into_raw result is
non-null (given that the inner implementation itself round-trips), and a
null inner encoding collapses Some to None. -/
theorem option_codec_null_encoding :
    (∀ (α : Type) (I : ViaRawPointerImpl α), optionIntoRaw I none = nullPtr) ∧
    (∀ (α : Type) (I : ViaRawPointerImpl α) (v : α),
      optionIntoRaw I (some v) = I.into_raw v) ∧
    (∀ (α : Type) (I : ViaRawPointerImpl α), optionFromRaw I nullPtr = none) ∧
    (∀ (α : Type) (I : ViaRawPointerImpl α) (p : Ptr), p ≠ nullPtr →
      optionFromRaw I p = some (I.from_raw p)) ∧
    (∀ (α : Type) (I : ViaRawPointerImpl α) (v : α), I.into_raw v = nullPtr →
      optionFromRaw I (optionIntoRaw I (some v)) = none) ∧
    (∀ (α : Type) (I : ViaRawPointerImpl α) (v : α),
      I.from_raw (I.into_raw v) = v →
      (optionFromRaw I (optionIntoRaw I (some v)) = some v ↔ I.into_raw v ≠ nullPtr)) := by
  refine ⟨fun _ _ => rfl, fun _ _ _ => rfl, fun _ _ => by simp [optionFromRaw],
    fun _ I p hp => by simp [optionFromRaw, hp], fun _ I v hv => by simp [optionIntoRaw, optionFromRaw, hv],
    fun _ I v hrt => ?_⟩
  constructor
  · intro hsome hnull
    simp [optionIntoRaw, optionFromRaw, hnull] at hsome
  · intro hnn
    simp [optionIntoRaw, optionFromRaw, hnn, hrt]

/-- Witness for C10: the null-encoding facts evaluated at the documentation
StaticWaker codec and at a non-null codec. -/
theorem option_codec_null_encoding_witness :
    optionFromRaw staticWakerVia (optionIntoRaw staticWakerVia (some ())) = none ∧
    optionFromRaw succVia 5 = some 4 ∧
    (optionFromRaw succVia (optionIntoRaw succVia (some 4)) = some 4 ↔ succVia.into_raw 4 ≠ nullPtr) :=
  ⟨option_codec_null_encoding.2.2.2.2.1 Unit staticWakerVia () (by decide),
   option_codec_null_encoding.2.2.2.1 Nat succVia 5 (by decide),
   option_codec_null_encoding.2.2.2.2.2 Nat succVia 4 (by decide)⟩

/-- Counterexample for C2: Option is one of the provided ViaRawPointer
implementations, and StaticWaker is the crate documentation's own user
implementation satisfying the trait's stated interface, yet unpacking the
packed representation of Some StaticWaker yields None, not the original
value. -/
theorem option_roundtrip_null_counterexample :
    optionFromRaw staticWakerVia (optionIntoRaw staticWakerVia (some ())) ≠ some () ∧
    optionFromRaw staticWakerVia (optionIntoRaw staticWakerVia (some ())) = none := by
  constructor <;> decide

/-- C2 (amended): the round-trip law from_raw (into_raw v) = v holds for
Box, Arc, Rc, arc Weak and rc Weak over every value, and for Option it
holds for None unconditionally and for Some v exactly when the inner
implementation round-trips on v and its into_raw result is non-null. -/
theorem via_raw_pointer_roundtrip_amended :
    (∀ b : BoxRepr, boxFromRaw (boxIntoRaw b) = b) ∧
    (∀ a : ArcRepr, arcFromRaw (arcIntoRaw a) = a) ∧
    (∀ r : RcRepr, rcFromRaw (rcIntoRaw r) = r) ∧
    (∀ a : ArcWeakRepr, arcWeakFromRaw (arcWeakIntoRaw a) = a) ∧
    (∀ r : RcWeakRepr, rcWeakFromRaw (rcWeakIntoRaw r) = r) ∧
    (∀ (α : Type) (I : ViaRawPointerImpl α),
      optionFromRaw I (optionIntoRaw I none) = none) ∧
    (∀ (α : Type) (I : ViaRawPointerImpl α) (v : α),
      I.from_raw (I.into_raw v) = v → I.into_raw v ≠ nullPtr →
      optionFromRaw I (optionIntoRaw I (some v)) = some v) := by
  refine ⟨fun _ => rfl, fun _ => rfl, fun _ => rfl, fun _ => rfl, fun _ => rfl,
    fun _ _ => by simp [optionIntoRaw, optionFromRaw],
    fun _ I v hrt hnn => by simp [optionIntoRaw, optionFromRaw, hnn, hrt]⟩

/-- Witness for the amended C2: the Option round-trip at a concrete
non-null user codec and a concrete value. -/
theorem via_raw_pointer_roundtrip_amended_witness :
    optionFromRaw succVia (optionIntoRaw succVia (some 4)) = some 4 :=
  via_raw_pointer_roundtrip_amended.2.2.2.2.2.2 Nat succVia 4 (by decide) (by decide)

/-- A world for the reference-counted counter scenarios: the strong and
weak counts of the single shared allocation, and the Counter value stored
in it (the count field incremented by Counter wake_by_ref, as in the
crate's Arc example at lines 100-117). -/
structure RcWorld where
  strong : Nat
  weak : Nat
  count : Nat
deriving DecidableEq

/-- Cloning an Arc increments the strong count; the clone refers to the
same allocation. -/
def arcCloneOp (w : RcWorld) : RcWorld := { w with strong := w.strong + 1 }

/-- Dropping an Arc decrements the strong count; when it reaches zero the
inner value is torn down. -/
def arcDropOp (w : RcWorld) : RcWorld := { w with strong := w.strong - 1 }

/-- Dropping an Rc decrements the strong count, as for Arc. -/
def rcDropOp (w : RcWorld) : RcWorld := { w with strong := w.strong - 1 }

/-- The wake_by_ref of the wrapped Counter (lines 113-117 of the crate
documentation): it increments the count. Dereferencing the inner value
requires the allocation to be alive, so a dead target faults (none). -/
def counterWakeByRef (w : RcWorld) : Option RcWorld :=
  if 0 < w.strong then some { w with count := w.count + 1 } else none

/-- WakeRef for arc Arc (lines 344-349): forwards to the inner value's
wake_by_ref through as_ref. -/
def arcWakeByRef (w : RcWorld) : Option RcWorld := counterWakeByRef w

/-- Wake for arc Arc (line 351) keeps the default body of lines 198-201:
wake_by_ref on self, after which self goes out of scope and one strong
reference is released. -/
def arcWake (w : RcWorld) : Option RcWorld := (arcWakeByRef w).map arcDropOp

/-- WakeRef for rc Rc (lines 374-379): forwards to the inner value's
wake_by_ref through as_ref. -/
def rcWakeByRef (w : RcWorld) : Option RcWorld := counterWakeByRef w

/-- Wake for rc Rc (lines 393-398) overrides wake to call the inner
value's wake_by_ref; self is dropped at the end of the call, releasing one
strong reference. -/
def rcWake (w : RcWorld) : Option RcWorld := (rcWakeByRef w).map rcDropOp

/-- Upgrading an arc Weak: when the target is still alive (positive strong
count) it produces a fresh strong handle, otherwise it reports failure and
leaves the world unchanged. -/
def arcUpgrade (w : RcWorld) : Option Unit × RcWorld :=
  if 0 < w.strong then (some (), arcCloneOp w) else (none, w)

/-- Upgrading an rc Weak, with the same semantics as for arc Weak. -/
def rcUpgrade (w : RcWorld) : Option Unit × RcWorld :=
  if 0 < w.strong then (some (), arcCloneOp w) else (none, w)

/-- WakeRef for arc Weak (lines 365-370): the body upgrade followed by
wake composes the upgrade with the Wake implementation for Option applied
to the upgraded strong handle. -/
def arcWeakWakeByRef (w : RcWorld) : Option RcWorld :=
  let u := arcUpgrade w
  optionWakeImpl (fun _ => arcWake) u.1 u.2

/-- Dropping the arc Weak handle itself releases one weak reference. -/
def arcWeakDropOp (w : RcWorld) : RcWorld := { w with weak := w.weak - 1 }

/-- Wake for arc Weak (line 372) keeps the default: wake_by_ref, then the
weak handle itself is dropped. -/
def arcWeakWake (w : RcWorld) : Option RcWorld := (arcWeakWakeByRef w).map arcWeakDropOp

/-- WakeRef for rc Weak (lines 412-417): upgrade followed by wake, through
the Wake implementation for Option. -/
def rcWeakWakeByRef (w : RcWorld) : Option RcWorld :=
  let u := rcUpgrade w
  optionWakeImpl (fun _ => rcWake) u.1 u.2

/-- Dropping the rc Weak handle itself releases one weak reference. -/
def rcWeakDropOp (w : RcWorld) : RcWorld := { w with weak := w.weak - 1 }

/-- Wake for rc Weak (line 419) keeps the default: wake_by_ref, then the
weak handle itself is dropped. -/
def rcWeakWake (w : RcWorld) : Option RcWorld := (rcWeakWakeByRef w).map rcWeakDropOp

/-- The vtable clone entry (lines 243-260) at the Arc of Counter
instantiation: from_raw rebuilds the handle, Clone duplicates it (the
duplicate shares the allocation, so it packs to the same address), then
into_raw repacks the original (whose result the debug assertion compares
with raw) and packs the duplicate. The result carries the updated world,
the repacked original pointer, and the duplicate's pointer. -/
def vtArcClone (w : RcWorld) (raw : Ptr) : RcWorld × Ptr × Ptr :=
  let waker := arcFromRaw raw
  let cloned := waker
  let w1 := arcCloneOp w
  let waker_raw := arcIntoRaw waker
  let cloned_raw := arcIntoRaw cloned
  (w1, waker_raw, cloned_raw)

/-- The vtable wake-by-value entry (lines 261-266) at Arc of Counter:
from_raw rebuilds the handle and its consuming wake runs. -/
def vtArcWake (w : RcWorld) : Option RcWorld := arcWake w

/-- The vtable wake-by-ref entry (lines 267-275) at Arc of Counter:
from_raw rebuilds the handle, wake_by_ref runs, into_raw repacks it with
the same pointer. -/
def vtArcWakeByRef (w : RcWorld) : Option RcWorld := arcWakeByRef w

/-- The vtable destroy entry (lines 276-280) at Arc of Counter: from_raw
rebuilds the handle and it is dropped; the handle must still own its
strong reference for this to be sound. -/
def vtArcDrop (w : RcWorld) : Option RcWorld :=
  if 0 < w.strong then some (arcDropOp w) else none

/-- The shared-handle delegation scenario of the specification: an Arc
around a fresh Counter, a clone of it converted to an erased handle, three
wake-by-reference invocations through the vtable, then one consuming wake
through the vtable. -/
def scenarioSharedCounter : Option RcWorld :=
  let w0 : RcWorld := { strong := 1, weak := 0, count := 0 }
  let w1 := arcCloneOp w0
  (vtArcWakeByRef w1).bind fun w2 =>
  (vtArcWakeByRef w2).bind fun w3 =>
  (vtArcWakeByRef w3).bind fun w4 =>
  vtArcWake w4

/-- C3: consuming wake on a shared strong handle forwards to wake_by_ref
on the inner value (the counter is incremented exactly as by wake_by_ref
and only the handle's own strong reference is released, so the inner value
is not consumed while other references remain), and the three
wake-by-reference plus one consuming-wake scenario leaves the counter at
exactly four increments. -/
theorem arc_rc_wake_forwards_and_counter_scenario :
    scenarioSharedCounter = some { strong := 1, weak := 0, count := 4 } ∧
    (∀ w : RcWorld, 0 < w.strong →
      arcWake w = some { strong := w.strong - 1, weak := w.weak, count := w.count + 1 } ∧
      rcWake w = some { strong := w.strong - 1, weak := w.weak, count := w.count + 1 }) := by
  refine ⟨by decide, fun w hw => ?_⟩
  constructor <;>
    simp [arcWake, rcWake, arcWakeByRef, rcWakeByRef, counterWakeByRef, hw, arcDropOp, rcDropOp]

/-- Witness for C3: the forwarding equalities evaluated on a shared
allocation with two strong references. -/
theorem arc_rc_wake_forwards_and_counter_scenario_witness :
    arcWake ⟨2, 0, 5⟩ = some ⟨1, 0, 6⟩ ∧ rcWake ⟨2, 0, 5⟩ = some ⟨1, 0, 6⟩ :=
  arc_rc_wake_forwards_and_counter_scenario.2 ⟨2, 0, 5⟩ (by decide)

/-- C5: the vtable clone entry leaves the original handle intact: the
repacked original pointer has the original bit pattern (the debug
assertion holds), the original still owns a strong reference afterward,
and the duplicate is a freshly packed handle that remains fully functional
after the original is dropped: destroying the original and then waking the
clone by reference still increments the counter. -/
theorem clone_preserves_original_handle (w : RcWorld) (raw : Ptr) (h : 1 ≤ w.strong) :
    (vtArcClone w raw).2.1 = raw ∧
    (vtArcClone w raw).2.2 = raw ∧
    (vtArcClone w raw).1.strong = w.strong + 1 ∧
    (vtArcDrop (vtArcClone w raw).1).bind vtArcWakeByRef =
      some { strong := w.strong, weak := w.weak, count := w.count + 1 } := by
  refine ⟨rfl, rfl, rfl, ?_⟩
  have h1 : 0 < w.strong + 1 := Nat.succ_pos _
  simp [vtArcClone, vtArcDrop, arcCloneOp, arcDropOp, vtArcWakeByRef, arcWakeByRef,
    counterWakeByRef, Nat.lt_of_lt_of_le Nat.zero_lt_one h]

/-- Witness for C5: the clone entry evaluated on a world with one strong
reference and an arbitrary concrete pointer. -/
theorem clone_preserves_original_handle_witness :
    (vtArcClone ⟨1, 0, 0⟩ 7).2.1 = 7 ∧
    (vtArcClone ⟨1, 0, 0⟩ 7).2.2 = 7 ∧
    (vtArcClone ⟨1, 0, 0⟩ 7).1.strong = 2 ∧
    (vtArcDrop (vtArcClone ⟨1, 0, 0⟩ 7).1).bind vtArcWakeByRef = some ⟨1, 0, 1⟩ :=
  clone_preserves_original_handle ⟨1, 0, 0⟩ 7 (by decide)

/-- C8: waking a shared weak handle by reference upgrades it and wakes the
resulting strong handle when the target is alive (incrementing the counter
and leaving the reference counts unchanged), and is a fault-free no-op
when the target is gone; the consuming wake performs the same waking
behavior and then releases the weak handle itself. This holds for both the
arc and the rc weak handles. -/
theorem weak_upgrade_wake_semantics (w : RcWorld) :
    (0 < w.strong →
      arcWeakWakeByRef w = some { w with count := w.count + 1 } ∧
      rcWeakWakeByRef w = some { w with count := w.count + 1 } ∧
      arcWeakWake w = some { w with count := w.count + 1, weak := w.weak - 1 } ∧
      rcWeakWake w = some { w with count := w.count + 1, weak := w.weak - 1 }) ∧
    (w.strong = 0 →
      arcWeakWakeByRef w = some w ∧
      rcWeakWakeByRef w = some w ∧
      arcWeakWake w = some { w with weak := w.weak - 1 } ∧
      rcWeakWake w = some { w with weak := w.weak - 1 }) := by
  constructor
  · intro hw
    refine ⟨?_, ?_, ?_, ?_⟩ <;>
      simp [arcWeakWakeByRef, rcWeakWakeByRef, arcWeakWake, rcWeakWake, arcUpgrade, rcUpgrade,
        hw, optionWakeImpl, arcWake, rcWake, arcWakeByRef, rcWakeByRef, counterWakeByRef,
        arcCloneOp, arcDropOp, rcDropOp, arcWeakDropOp, rcWeakDropOp]
  · intro hw
    refine ⟨?_, ?_, ?_, ?_⟩ <;>
      simp [arcWeakWakeByRef, rcWeakWakeByRef, arcWeakWake, rcWeakWake, arcUpgrade, rcUpgrade,
        hw, optionWakeImpl, arcWeakDropOp, rcWeakDropOp]

/-- Witness for C8: the weak-handle semantics evaluated on an alive target
and on a dead target. -/
theorem weak_upgrade_wake_semantics_witness :
    arcWeakWakeByRef ⟨1, 2, 0⟩ = some ⟨1, 2, 1⟩ ∧
    rcWeakWakeByRef ⟨0, 3, 7⟩ = some ⟨0, 3, 7⟩ :=
  ⟨((weak_upgrade_wake_semantics ⟨1, 2, 0⟩).1 (by decide)).1,
   ((weak_upgrade_wake_semantics ⟨0, 3, 7⟩).2 (by decide)).2.1⟩

/-- An instrumented wake-capable value: the world records how many times
its wake_by_ref ran and how many times its destructor ran. -/
structure Instr where
  wakeRefCount : Nat
  dropCount : Nat
deriving DecidableEq

/-- The instrumented wake_by_ref increments its counter. -/
def instrWakeByRef (s : Instr) : Instr := { s with wakeRefCount := s.wakeRefCount + 1 }

/-- The instrumented destructor increments its counter. -/
def instrDropOp (s : Instr) : Instr := { s with dropCount := s.dropCount + 1 }

/-- The default body of Wake wake (lines 198-201): the method consumes
self, calls self.wake_by_ref(), and then self goes out of scope, so its
teardown runs. -/
def wakeDefault (wakeByRefImpl dropImpl : σ → σ) (s : σ) : σ := dropImpl (wakeByRefImpl s)

/-- The consuming wake of the instrumented value, which does not override
the default. -/
def instrWakeDefault : Instr → Instr := wakeDefault instrWakeByRef instrDropOp

/-- C4: for a type that keeps the default Wake wake, waking by value is
waking by reference followed by the value's teardown: the wake_by_ref
counter advances exactly as under wake_by_ref alone (so the consuming wake
never does strictly less), and additionally exactly one teardown runs. -/
theorem default_wake_equals_wake_by_ref_then_drop (s : Instr) :
    instrWakeDefault s = instrDropOp (instrWakeByRef s) ∧
    (instrWakeDefault s).wakeRefCount = (instrWakeByRef s).wakeRefCount ∧
    (instrWakeDefault s).wakeRefCount = s.wakeRefCount + 1 ∧
    (instrWakeDefault s).dropCount = s.dropCount + 1 :=
  ⟨rfl, rfl, rfl, rfl⟩

/-- A heap world for the boxed instrumented value: the list of live
allocation addresses, the next fresh address, and the counters of inner
teardowns, wake-by-reference runs and wake-by-value runs. -/
structure BoxWorld where
  live : List Ptr
  next : Ptr
  drops : Nat
  wakeRefs : Nat
  wakeValues : Nat
deriving DecidableEq

/-- Allocating a box: a fresh address becomes live and is returned. -/
def boxAlloc (w : BoxWorld) : BoxWorld × Ptr :=
  ({ w with live := w.next :: w.live, next := w.next + 1 }, w.next)

/-- Dropping a box runs the inner instrumented destructor and releases the
allocation; releasing an address that is not live is a double free, which
faults. -/
def boxFree (w : BoxWorld) (p : Ptr) : Option BoxWorld :=
  if p ∈ w.live then some { w with live := w.live.erase p, drops := w.drops + 1 } else none

/-- The vtable clone entry (lines 243-260) at the boxed instrumented
value: from_raw rebuilds the box (its address must be live to read it),
Clone for Box allocates a fresh box holding a copy, into_raw repacks the
original (the debug assertion compares the result with raw) and packs the
duplicate. The result is the world, the repacked original address and the
duplicate's address. -/
def vtBoxClone (w : BoxWorld) (raw : Ptr) : Option (BoxWorld × Ptr × Ptr) :=
  if raw ∈ w.live then
    let r := boxAlloc w
    some (r.1, raw, r.2)
  else none

/-- The vtable wake-by-ref entry (lines 267-275) at the boxed instrumented
value: the inner wake_by_ref runs and the box is repacked with the same
address. -/
def vtBoxWakeByRef (w : BoxWorld) (raw : Ptr) : Option BoxWorld :=
  if raw ∈ w.live then some { w with wakeRefs := w.wakeRefs + 1 } else none

/-- The vtable wake-by-value entry (lines 261-266) at the boxed
instrumented value: from_raw rebuilds the box, Wake for Box consumes it
(the allocation is released), the inner value is woken by value and then
torn down. -/
def vtBoxWake (w : BoxWorld) (raw : Ptr) : Option BoxWorld :=
  if raw ∈ w.live then
    some { w with live := w.live.erase raw, wakeValues := w.wakeValues + 1,
                  drops := w.drops + 1 }
  else none

/-- The vtable destroy entry (lines 276-280) at the boxed instrumented
value: from_raw rebuilds the box and it is dropped. -/
def vtBoxDrop (w : BoxWorld) (raw : Ptr) : Option BoxWorld := boxFree w raw

/-- The teardown-counting scenario of the specification, starting from a
given prior teardown count: box a fresh instrumented value, convert it to
an erased handle (into_raw), clone the handle once through the vtable,
then drop both handles through the vtable. -/
def scenarioTeardown (dr : Nat) : Option BoxWorld :=
  let w0 : BoxWorld := { live := [], next := 1, drops := dr, wakeRefs := 0, wakeValues := 0 }
  let a := boxAlloc w0
  (vtBoxClone a.1 a.2).bind fun r =>
  (vtBoxDrop r.1 r.2.1).bind fun w2 =>
  vtBoxDrop w2 r.2.2

/-- C6: converting an instrumented value to an erased handle, cloning the
handle once and dropping both handles yields exactly two teardowns, zero
wake-by-value runs (hence at most one) and no double teardown: both
destroy operations succeed and the live set ends empty, so each opaque
representation is consumed exactly once, by destroy. -/
theorem teardown_counting_scenario (dr : Nat) :
    scenarioTeardown dr =
      some { live := [], next := 3, drops := dr + 2, wakeRefs := 0, wakeValues := 0 } :=
  rfl

/-- The model dispatch table: the four entries of RawWakerVTable new
(lines 242-281) at the Arc of Counter instantiation. -/
structure RawWakerVTableM (σ : Type) where
  cloneFn : σ → Ptr → σ × Ptr × Ptr
  wakeFn : σ → Option σ
  wakeByRefFn : σ → Option σ
  dropFn : σ → Option σ

/-- The single static vtable of the Arc of Counter type: the associated
constant VTABLE of lines 242-281. -/
def arcCounterVTABLE : RawWakerVTableM RcWorld :=
  { cloneFn := vtArcClone, wakeFn := vtArcWake,
    wakeByRefFn := vtArcWakeByRef, dropFn := vtArcDrop }

/-- An erased handle: the opaque data pointer paired with the dispatch
table reference, as built by RawWaker new. -/
structure RawWakerM (σ : Type) where
  data : Ptr
  vtable : RawWakerVTableM σ

/-- The conversion entry point into_waker (lines 283-288) at Arc of
Counter: pack the value with into_raw and pair the pointer with the
type's static vtable. -/
def arcIntoWaker (a : ArcRepr) : RawWakerM RcWorld :=
  { data := arcIntoRaw a, vtable := arcCounterVTABLE }

/-- Cloning an erased handle through the vtable: the clone entry returns
RawWaker new of the duplicate's pointer and the same static vtable
(line 259). -/
def wakerCloneArc (w : RcWorld) (h : RawWakerM RcWorld) : RcWorld × RawWakerM RcWorld :=
  let r := vtArcClone w h.data
  (r.1, { data := r.2.2, vtable := arcCounterVTABLE })

/-- The scheduler-level same-target comparison: equal data pointer bit
patterns and the same dispatch table. -/
def willWake (h1 h2 : RawWakerM σ) : Prop := h1.data = h2.data ∧ h1.vtable = h2.vtable

/-- C7: every handle produced by into_waker or by the vtable clone entry
at the Arc of Counter type carries the one static dispatch table of that
type, identical across conversions and clones, and the same-target
comparison between a handle and its clone holds. -/
theorem vtable_static_per_type :
    (∀ a : ArcRepr, (arcIntoWaker a).vtable = arcCounterVTABLE) ∧
    (∀ (w : RcWorld) (h : RawWakerM RcWorld),
      (wakerCloneArc w h).2.vtable = arcCounterVTABLE) ∧
    (∀ (w : RcWorld) (a : ArcRepr),
      willWake (arcIntoWaker a) (wakerCloneArc w (arcIntoWaker a)).2) :=
  ⟨fun _ => rfl, fun _ _ => rfl, fun _ _ => ⟨rfl, rfl⟩⟩

/-- Counters for the PanicWaker type of the crate's own test module
(lines 483-520): how many times wake_by_ref started, how many times the
consuming wake ran, and how many times the destructor ran. -/
structure PanicWorld where
  wakeRefCount : Nat
  wakeValueCount : Nat
  dropCount : Nat
deriving DecidableEq

/-- PanicWaker wake_by_ref (lines 490-495): it increments its counter and
then raises a panic, which unwinds to the caller. -/
def panicWakerWakeByRef (s : PanicWorld) : Except PanicWorld PanicWorld :=
  .error { s with wakeRefCount := s.wakeRefCount + 1 }

/-- PanicWaker drop (lines 503-507): the destructor increments its
counter. -/
def panicWakerDropOp (s : PanicWorld) : PanicWorld :=
  { s with dropCount := s.dropCount + 1 }

/-- PanicWaker wake (lines 497-501): it increments the by-value counter;
self was consumed by the call, so its teardown runs at the end of the
method. -/
def panicWakerWake (s : PanicWorld) : Except PanicWorld PanicWorld :=
  .ok (panicWakerDropOp { s with wakeValueCount := s.wakeValueCount + 1 })

/-- The vtable wake-by-ref entry (lines 267-275) at PanicWaker, with Rust
unwinding semantics: from_raw makes the local waker an owned value, so
when wake_by_ref raises a panic before waker.into_raw() is reached, the
unwinding of the entry drops that local value and its destructor runs; on
the non-panicking path into_raw forgets the value, so no teardown runs. -/
def vtPanicWakeByRef (s : PanicWorld) : Except PanicWorld PanicWorld :=
  match panicWakerWakeByRef s with
  | .error s1 => .error (panicWakerDropOp s1)
  | .ok s1 => .ok s1

/-- The vtable wake-by-value entry (lines 261-266) at PanicWaker: from_raw
rebuilds the value and its consuming wake runs. -/
def vtPanicWake (s : PanicWorld) : Except PanicWorld PanicWorld :=
  panicWakerWake s

/-- The vtable wake-by-ref entry at a boxed value whose inner wake_by_ref
always raises a panic: from_raw rebuilds the owned box, the inner
wake_by_ref increments its counter and panics, and the unwinding drops the
local box, tearing down the inner value and releasing the allocation even
though the erased handle still holds the raw address. -/
def vtBoxPanicWakeByRef (w : BoxWorld) (raw : Ptr) : Option (Except BoxWorld BoxWorld) :=
  if raw ∈ w.live then
    some (.error { w with wakeRefs := w.wakeRefs + 1, live := w.live.erase raw,
                          drops := w.drops + 1 })
  else none

/-- C1 (the code contradicts the claim and the crate's own panic_wake
test): at PanicWaker, the panicking wake-by-ref propagates the panic but
runs one teardown on the way out (the test at line 538 asserts a teardown
count of zero there), after which the subsequent consuming wake runs once
and adds another teardown (cumulative two, while the test at line 552
asserts one); at a boxed value, the panicking wake-by-ref frees the
allocation the handle still points to, so the subsequent destroy is a
double free. -/
theorem panic_wake_by_ref_runs_teardown :
    vtPanicWakeByRef ⟨0, 0, 0⟩ = .error ⟨1, 0, 1⟩ ∧
    vtPanicWake ⟨1, 0, 1⟩ = .ok ⟨1, 1, 2⟩ ∧
    vtBoxPanicWakeByRef ⟨[1], 2, 0, 0, 0⟩ 1 = some (.error ⟨[], 2, 1, 1, 0⟩) ∧
    vtBoxDrop ⟨[], 2, 1, 1, 0⟩ 1 = none :=
  ⟨rfl, rfl, rfl, rfl⟩
